import Mathlib

/-!
Verification of the subscription / billing subsystem of the
sports-statistics backend (tier-gated data access, entitlement
resolution, and Stripe billing-event reconciliation).

The definitions below are a shallow embedding of the Python source:

* app/models/users.py            (User legacy fields and entitlement properties)
* app/models/subscriptions.py    (Plan, Subscription, Purchase, PaymentHistory)
* app/services/subscription_service.py (store-level CRUD and feature checks)
* app/services/stripe_service.py (webhook reconciliation handlers)
* app/util/subscription.py       (tier-week policy)
* app/api/v1/endpoints/subscriptions.py (checkout endpoints)

Database rows are modelled as Lean structures; uuid primary keys become
Nat ids, datetimes become Int epoch seconds, JSONB feature dicts become
association lists.  SQLAlchemy ORM mutation followed by commit is
modelled as pure state transformation on a DB value; where a claim is
about transaction boundaries, the handler additionally returns the list
of states that were committed to the store along the way (a commit
flushes every pending mutation of the session at once).
-/

/-- Python truthiness of an optional string: None and the empty string are falsy. -/
def strTruthy : Option String → Bool
  | none => false
  | some s => s != ""

/-- Python truthiness of an optional integer: None and 0 are falsy. -/
def intTruthy : Option Int → Bool
  | none => false
  | some t => t != 0

/-- datetime.fromtimestamp(ts) if ts else None: a falsy epoch value parses to None. -/
def pyTs : Option Int → Option Int
  | none => none
  | some t => if t == 0 then none else some t

/-- Conditional field update as in update_subscription_status: a value is
written only when the argument is not None, otherwise the stored value is kept. -/
def optUpd {α : Type} (old : Option α) (new : Option α) : Option α :=
  match new with
  | some v => some v
  | none => old

/-- A JSONB feature-capability dict (feature key to granted flag). -/
abbrev Features := List (String × Bool)

/-- dict.get(key) with Python truthiness of the result (missing key is falsy). -/
def featuresGet (fs : Features) (key : String) : Bool :=
  match fs.find? (fun p => p.1 == key) with
  | some p => p.2
  | none => false

/-- app/models/subscriptions.py Plan. -/
structure Plan where
  id : Nat
  stripe_price_id : String
  name : String
  plan_type : String
  price_cents : Int
  currency : String
  features : Option Features
  is_active : Bool
  deriving DecidableEq, Repr

/-- app/models/subscriptions.py Subscription. -/
structure Subscription where
  id : Nat
  user_id : Nat
  plan_id : Nat
  stripe_subscription_id : Option String
  status : String
  current_period_start : Option Int
  current_period_end : Option Int
  cancel_at_period_end : Bool
  canceled_at : Option Int
  ended_at : Option Int
  trial_start : Option Int
  trial_end : Option Int
  created_at : Int
  updated_at : Int
  deriving DecidableEq, Repr

/-- app/models/subscriptions.py Purchase. -/
structure Purchase where
  id : Nat
  user_id : Nat
  plan_id : Nat
  stripe_payment_intent_id : Option String
  stripe_checkout_session_id : Option String
  status : String
  amount_cents : Int
  currency : String
  purchased_at : Option Int
  created_at : Int
  updated_at : Int
  deriving DecidableEq, Repr

/-- app/models/subscriptions.py PaymentHistory (append-only audit row). -/
structure PaymentHistory where
  user_id : Nat
  subscription_id : Option Nat
  purchase_id : Option Nat
  stripe_invoice_id : Option String
  stripe_payment_intent_id : Option String
  stripe_charge_id : Option String
  event_type : String
  amount_cents : Int
  currency : String
  status : String
  failure_reason : Option String
  refund_reason : Option String
  invoice_url : Option String
  receipt_url : Option String
  deriving DecidableEq, Repr

/-- app/models/users.py User: the principal with its denormalized legacy
subscription fields. -/
structure User where
  id : Nat
  is_superuser : Bool
  subscription_tier : String
  stripe_customer_id : Option String
  stripe_subscription_id : Option String
  subscription_status : String
  subscription_current_period_end : Option Int
  subscription_cancel_at_period_end : Bool
  has_bidding_package : Bool
  deriving DecidableEq, Repr

/-- The relational store: one list per table plus a fresh-id source for
rows created during reconciliation. -/
structure DB where
  users : List User
  plans : List Plan
  subscriptions : List Subscription
  purchases : List Purchase
  payments : List PaymentHistory
  next_id : Nat
  deriving DecidableEq, Repr

/-- Plan lookup by primary key (SubscriptionService.get_plan_by_id). -/
def DB.planById (db : DB) (pid : Nat) : Option Plan :=
  db.plans.find? (fun p => p.id == pid)

/-- SubscriptionService.get_plan_by_stripe_price_id. -/
def get_plan_by_stripe_price_id (db : DB) (price : String) : Option Plan :=
  db.plans.find? (fun p => p.stripe_price_id == price)

/-- SubscriptionService.get_subscription_by_stripe_id: SQL equality against a
possibly-NULL parameter matches nothing when the parameter is NULL. -/
def get_subscription_by_stripe_id (db : DB) (sid : Option String) : Option Subscription :=
  match sid with
  | none => none
  | some i => db.subscriptions.find? (fun s => s.stripe_subscription_id == some i)

/-- StripeService._get_user_by_customer_id. -/
def get_user_by_customer_id (db : DB) (cid : String) : Option User :=
  db.users.find? (fun u => u.stripe_customer_id == some cid)

/-- The guard pattern "sub.plan and sub.plan.features and features.get(key)"
used by the entitlement checks (a missing plan row, a NULL features dict and
an empty dict are all falsy). -/
def planGrants (pl : Option Plan) (key : String) : Bool :=
  match pl with
  | none => false
  | some p =>
    match p.features with
    | none => false
    | some fs => !fs.isEmpty && featuresGet fs key

/-- The lazily loaded User.subscriptions relationship. -/
def DB.userSubscriptions (db : DB) (uid : Nat) : List Subscription :=
  db.subscriptions.filter (fun s => s.user_id == uid)

/-- The lazily loaded User.purchases relationship. -/
def DB.userPurchases (db : DB) (uid : Nat) : List Purchase :=
  db.purchases.filter (fun p => p.user_id == uid)

/-- User.has_premium_access (app/models/users.py): superuser override, then
active/trialing subscriptions whose plan grants premium_access, then the
legacy tier/status fallback. -/
def has_premium_access (db : DB) (u : User) : Bool :=
  if u.is_superuser then true
  else if (db.userSubscriptions u.id).any (fun s =>
      (s.status == "active" || s.status == "trialing") &&
      planGrants (db.planById s.plan_id) "premium_access") then true
  else if u.subscription_tier == "subscriber" &&
      (u.subscription_status == "active" || u.subscription_status == "trialing") then true
  else false

/-- User.has_bidding_package_access (app/models/users.py): superuser override,
then completed purchases whose plan grants bidding_package, then the legacy
has_bidding_package flag. -/
def has_bidding_package_access (db : DB) (u : User) : Bool :=
  if u.is_superuser then true
  else if (db.userPurchases u.id).any (fun p =>
      p.status == "completed" &&
      planGrants (db.planById p.plan_id) "bidding_package") then true
  else u.has_bidding_package

/-- SubscriptionService.user_has_feature: active/trialing subscriptions, then
completed purchases; no superuser override and no legacy fallback. -/
def user_has_feature (db : DB) (uid : Nat) (feature_key : String) : Bool :=
  (db.subscriptions.filter (fun s => s.user_id == uid &&
      (s.status == "active" || s.status == "trialing"))).any
    (fun s => planGrants (db.planById s.plan_id) feature_key)
  ||
  (db.purchases.filter (fun p => p.user_id == uid && p.status == "completed")).any
    (fun p => planGrants (db.planById p.plan_id) feature_key)

/-- get_allowed_data_week (app/util/subscription.py): premium principals see
the current data week, everyone else (including unauthenticated callers) sees
the previous week with a floor of 0. -/
def get_allowed_data_week (db : DB) (user : Option User) (current_data_week : Int) : Int :=
  match user with
  | none => max 0 (current_data_week - 1)
  | some u =>
    if has_premium_access db u then current_data_week
    else max 0 (current_data_week - 1)

/-- The entitlement check exactly as the specification words it (refinement
comparison for claim C1): one single predicate over (principal, feature key)
combining superuser override, active/trialing subscription capability,
completed purchase capability, and the per-feature legacy fallback. -/
def spec_has_feature (db : DB) (u : User) (feature_key : String) : Bool :=
  u.is_superuser ||
  (db.userSubscriptions u.id).any (fun s =>
      (s.status == "active" || s.status == "trialing") &&
      planGrants (db.planById s.plan_id) feature_key) ||
  (db.userPurchases u.id).any (fun p =>
      p.status == "completed" && planGrants (db.planById p.plan_id) feature_key) ||
  (if feature_key == "premium_access" then
      u.subscription_tier == "subscriber" &&
      (u.subscription_status == "active" || u.subscription_status == "trialing")
   else if feature_key == "bidding_package" then u.has_bidding_package
   else false)

/-- Proposition: some active or trialing subscription of the principal has a
plan whose capability set maps the feature key to true. -/
def ActiveSubGrants (db : DB) (uid : Nat) (key : String) : Prop :=
  ∃ s ∈ db.subscriptions, s.user_id = uid ∧
    (s.status = "active" ∨ s.status = "trialing") ∧
    planGrants (db.planById s.plan_id) key = true

/-- Proposition: some completed purchase of the principal has a plan whose
capability set maps the feature key to true. -/
def CompletedPurchaseGrants (db : DB) (uid : Nat) (key : String) : Prop :=
  ∃ p ∈ db.purchases, p.user_id = uid ∧ p.status = "completed" ∧
    planGrants (db.planById p.plan_id) key = true

/-- Proposition: the legacy denormalized fields alone grant premium access. -/
def LegacyPremium (u : User) : Prop :=
  u.subscription_tier = "subscriber" ∧
    (u.subscription_status = "active" ∨ u.subscription_status = "trialing")

/-- The relevant fields of a customer.subscription.* event payload.
items_price_id stands for items.data[0].price.id when the line-item list is
nonempty, None otherwise; cancel_at_period_end is read with default False. -/
structure StripeSubscriptionEvent where
  id : Option String
  customer : Option String
  status : Option String
  current_period_start : Option Int
  current_period_end : Option Int
  cancel_at : Option Int
  cancel_at_period_end : Bool
  trial_start : Option Int
  trial_end : Option Int
  items_price_id : Option String
  deriving DecidableEq, Repr

/-- The relevant fields of an invoice.payment_succeeded / invoice.payment_failed
payload.  last_finalization_error is None when the key is absent or falsy, and
some m when a truthy error dict is present with message m. -/
structure StripeInvoiceEvent where
  id : Option String
  customer : Option String
  subscription : Option String
  amount_paid : Int
  amount_due : Int
  payment_intent : Option String
  hosted_invoice_url : Option String
  invoice_pdf : Option String
  last_finalization_error : Option (Option String)
  deriving DecidableEq, Repr

/-- The relevant fields of a checkout.session.completed payload; plan_id and
product_type come from the session metadata. -/
structure StripeCheckoutEvent where
  id : Option String
  customer : Option String
  subscription : Option String
  mode : Option String
  plan_id : Option String
  product_type : Option String
  payment_intent : Option String
  amount_total : Option Int
  deriving DecidableEq, Repr

/-- SubscriptionService.get_purchase_by_checkout_session. -/
def get_purchase_by_checkout_session (db : DB) (csid : Option String) : Option Purchase :=
  match csid with
  | none => none
  | some i => db.purchases.find? (fun p => p.stripe_checkout_session_id == some i)

/-- SubscriptionService.get_active_subscription: the principal, an active or
trialing status, and optionally a specific plan. -/
def get_active_subscription (db : DB) (uid : Nat) (plan_id : Option Nat) : Option Subscription :=
  match plan_id with
  | some pid => db.subscriptions.find? (fun s => s.user_id == uid &&
      (s.status == "active" || s.status == "trialing") && s.plan_id == pid)
  | none => db.subscriptions.find? (fun s => s.user_id == uid &&
      (s.status == "active" || s.status == "trialing"))

/-- SubscriptionService.get_purchase: the completed purchase of a plan by a
principal, if any. -/
def get_purchase (db : DB) (uid : Nat) (pid : Nat) : Option Purchase :=
  db.purchases.find? (fun p => p.user_id == uid && p.plan_id == pid &&
    p.status == "completed")

/-- ORM mutation of a user row followed by session.add: the row with the given
primary key is replaced by its update. -/
def updateUserRecord (db : DB) (uid : Nat) (f : User → User) : DB :=
  { db with users := db.users.map (fun u => if u.id == uid then f u else u) }

/-- SubscriptionService.update_subscription_status: sets the status, refreshes
updated_at, and writes each optional field only when an argument was passed. -/
def update_subscription_status (db : DB) (sid : Nat) (status : String)
    (current_period_start current_period_end : Option Int)
    (cancel_at_period_end : Option Bool)
    (canceled_at ended_at : Option Int) (now : Int) : DB :=
  { db with subscriptions := db.subscriptions.map (fun s =>
      if s.id == sid then
        { s with
          status := status
          updated_at := now
          current_period_start := optUpd s.current_period_start current_period_start
          current_period_end := optUpd s.current_period_end current_period_end
          cancel_at_period_end := cancel_at_period_end.getD s.cancel_at_period_end
          canceled_at := optUpd s.canceled_at canceled_at
          ended_at := optUpd s.ended_at ended_at }
      else s) }

/-- SubscriptionService.create_subscription: inserts a fresh row; the model
defaults apply to every column not passed (cancel_at_period_end False,
canceled_at/ended_at NULL). -/
def create_subscription (db : DB) (user_id plan_id : Nat)
    (stripe_subscription_id : Option String) (status : String)
    (current_period_start current_period_end trial_start trial_end : Option Int)
    (now : Int) : DB :=
  { db with
    subscriptions := db.subscriptions ++ [{
      id := db.next_id
      user_id := user_id
      plan_id := plan_id
      stripe_subscription_id := stripe_subscription_id
      status := status
      current_period_start := current_period_start
      current_period_end := current_period_end
      cancel_at_period_end := false
      canceled_at := none
      ended_at := none
      trial_start := trial_start
      trial_end := trial_end
      created_at := now
      updated_at := now }]
    next_id := db.next_id + 1 }

/-- SubscriptionService.complete_purchase: marks the purchase completed,
stamps purchased_at, and stores the payment-intent id when one is given. -/
def complete_purchase (db : DB) (pid : Nat) (stripe_payment_intent_id : Option String)
    (now : Int) : DB :=
  { db with purchases := db.purchases.map (fun p =>
      if p.id == pid then
        { p with
          status := "completed"
          purchased_at := some now
          updated_at := now
          stripe_payment_intent_id :=
            if strTruthy stripe_payment_intent_id then stripe_payment_intent_id
            else p.stripe_payment_intent_id }
      else p) }

/-- SubscriptionService.record_payment: appends one immutable PaymentHistory
row (currency defaults to usd; charge id and refund reason are not passed by
any webhook handler). -/
def record_payment (db : DB) (user_id : Nat) (event_type : String)
    (amount_cents : Int) (status : String)
    (subscription_id purchase_id : Option Nat)
    (stripe_invoice_id stripe_payment_intent_id : Option String)
    (invoice_url receipt_url failure_reason : Option String) : DB :=
  { db with payments := db.payments ++ [{
      user_id := user_id
      subscription_id := subscription_id
      purchase_id := purchase_id
      stripe_invoice_id := stripe_invoice_id
      stripe_payment_intent_id := stripe_payment_intent_id
      stripe_charge_id := none
      event_type := event_type
      amount_cents := amount_cents
      currency := "usd"
      status := status
      failure_reason := failure_reason
      refund_reason := none
      invoice_url := invoice_url
      receipt_url := receipt_url }] }

/-- The provider-status-to-local-status table of
StripeService._update_user_subscription (dict .get with default none). -/
def status_map (s : String) : String :=
  if s == "active" then "active"
  else if s == "trialing" then "trialing"
  else if s == "past_due" then "past_due"
  else if s == "canceled" then "canceled"
  else if s == "unpaid" then "past_due"
  else if s == "incomplete" then "none"
  else if s == "incomplete_expired" then "none"
  else "none"

/-- The LEGACY block of _update_user_subscription: the dual-write of the
denormalized fields on the principal. -/
def legacySubUpdate (ev : StripeSubscriptionEvent) (mapped : String) (cape : Bool)
    (u : User) : User :=
  { u with
    stripe_subscription_id := ev.id
    subscription_status := mapped
    subscription_tier :=
      if mapped == "active" || mapped == "trialing" then "subscriber" else "free"
    subscription_current_period_end :=
      if intTruthy ev.current_period_end then pyTs ev.current_period_end
      else if intTruthy ev.cancel_at then pyTs ev.cancel_at
      else u.subscription_current_period_end
    subscription_cancel_at_period_end := cape }

/-- StripeService._update_user_subscription with its commit trace: the second
component lists, in order, every state committed to the store (each
SubscriptionService call ends in a commit, and the handler commits once more
at the end).  An early return commits nothing. -/
def update_user_subscription_tr (db : DB) (ev : StripeSubscriptionEvent) (now : Int) :
    DB × List DB :=
  if !strTruthy ev.customer then (db, [])
  else
    match get_user_by_customer_id db (ev.customer.getD "") with
    | none => (db, [])
    | some u =>
      let mapped := status_map (ev.status.getD "")
      let cape := ev.cancel_at_period_end || ev.cancel_at.isSome
      let db1 := updateUserRecord db u.id (legacySubUpdate ev mapped cape)
      let planFound :=
        if strTruthy ev.items_price_id then
          get_plan_by_stripe_price_id db1 (ev.items_price_id.getD "")
        else none
      match planFound with
      | none => (db1, [db1])
      | some plan =>
        match get_subscription_by_stripe_id db1 ev.id with
        | some sub =>
          let db2 := update_subscription_status db1 sub.id mapped
            (pyTs ev.current_period_start) (pyTs ev.current_period_end)
            (some cape) none none now
          (db2, [db2, db2])
        | none =>
          let db2 := create_subscription db1 u.id plan.id ev.id mapped
            (pyTs ev.current_period_start) (pyTs ev.current_period_end)
            (pyTs ev.trial_start) (pyTs ev.trial_end) now
          (db2, [db2, db2])

/-- StripeService._update_user_subscription, final state (shared by the
subscription.created and subscription.updated handlers). -/
def update_user_subscription (db : DB) (ev : StripeSubscriptionEvent) (now : Int) : DB :=
  (update_user_subscription_tr db ev now).1

/-- StripeService._handle_payment_failed with its commit trace. -/
def handle_payment_failed_tr (db : DB) (inv : StripeInvoiceEvent) (now : Int) :
    DB × List DB :=
  if !strTruthy inv.customer then (db, [])
  else
    match get_user_by_customer_id db (inv.customer.getD "") with
    | none => (db, [])
    | some u =>
      let db1 := updateUserRecord db u.id
        (fun x => { x with subscription_status := "past_due" })
      let subOpt :=
        if strTruthy inv.subscription then get_subscription_by_stripe_id db1 inv.subscription
        else none
      let step :=
        match subOpt with
        | some sub =>
          let d := update_subscription_status db1 sub.id "past_due"
            none none none none none now
          (d, [d])
        | none => (db1, [])
      let failure :=
        match inv.last_finalization_error with
        | none => none
        | some m => m
      let db3 := record_payment step.1 u.id "payment_failed" inv.amount_due "failed"
        (subOpt.map (fun s => s.id)) none inv.id none none none failure
      (db3, step.2 ++ [db3, db3])

/-- StripeService._handle_payment_failed, final state. -/
def handle_payment_failed (db : DB) (inv : StripeInvoiceEvent) (now : Int) : DB :=
  (handle_payment_failed_tr db inv now).1

/-- StripeService._handle_invoice_paid: best-effort correlation of the payment
to a local subscription; the payment is recorded under the principal alone
when no subscription matches. -/
def handle_invoice_paid (db : DB) (inv : StripeInvoiceEvent) (_now : Int) : DB :=
  if !strTruthy inv.customer then db
  else
    match get_user_by_customer_id db (inv.customer.getD "") with
    | none => db
    | some u =>
      let subOpt :=
        if strTruthy inv.subscription then get_subscription_by_stripe_id db inv.subscription
        else none
      record_payment db u.id "payment_succeeded" inv.amount_paid "succeeded"
        (subOpt.map (fun s => s.id)) none inv.id inv.payment_intent
        inv.hosted_invoice_url inv.invoice_pdf none

/-- StripeService._handle_subscription_deleted: reset the legacy fields to the
free/canceled state, then cancel the matching Subscription row if one exists. -/
def handle_subscription_deleted (db : DB) (ev : StripeSubscriptionEvent) (now : Int) : DB :=
  if !strTruthy ev.customer then db
  else
    match get_user_by_customer_id db (ev.customer.getD "") with
    | none => db
    | some u =>
      let db1 := updateUserRecord db u.id (fun x =>
        { x with
          subscription_tier := "free"
          subscription_status := "canceled"
          stripe_subscription_id := none
          subscription_current_period_end := none
          subscription_cancel_at_period_end := false })
      match (if strTruthy ev.id then get_subscription_by_stripe_id db1 ev.id else none) with
      | some sub =>
        update_subscription_status db1 sub.id "canceled" none none none none (some now) now
      | none => db1

/-- StripeService._handle_checkout_completed: the one-time bidding-package path
sets the legacy flag, then completes the pending purchase found by checkout
session id and records the payment when the metadata carries a plan id and a
purchase matches; the subscription path only dual-writes the legacy external
subscription id. -/
def handle_checkout_completed (db : DB) (cs : StripeCheckoutEvent) (now : Int) : DB :=
  if !strTruthy cs.customer then db
  else
    match get_user_by_customer_id db (cs.customer.getD "") with
    | none => db
    | some u =>
      if cs.mode == some "payment" && cs.product_type == some "bidding_package" then
        let db1 := updateUserRecord db u.id (fun x => { x with has_bidding_package := true })
        if strTruthy cs.plan_id then
          match get_purchase_by_checkout_session db1 cs.id with
          | some purchase =>
            let db2 := complete_purchase db1 purchase.id cs.payment_intent now
            record_payment db2 u.id "payment_succeeded"
              (cs.amount_total.getD purchase.amount_cents) "succeeded"
              none (some purchase.id) none cs.payment_intent none none none
          | none => db1
        else db1
      else
        if strTruthy cs.subscription then
          updateUserRecord db u.id (fun x => { x with stripe_subscription_id := cs.subscription })
        else db

/-- A webhook payload object, dispatched on the event type string. -/
inductive EventObj
  | checkout (c : StripeCheckoutEvent)
  | subObj (s : StripeSubscriptionEvent)
  | invoice (i : StripeInvoiceEvent)
  | rawData
  deriving DecidableEq, Repr

/-- The dict returned by StripeService.handle_webhook_event. -/
structure WebhookResult where
  status : String
  event_type : String
  deriving DecidableEq, Repr

/-- StripeService.handle_webhook_event after signature verification: string
dispatch over the six modeled event types; any other type falls through with
no mutation and the success result is returned either way. -/
def handle_webhook_event (db : DB) (event_type : String) (obj : EventObj) (now : Int) :
    DB × WebhookResult :=
  let db2 :=
    if event_type == "checkout.session.completed" then
      match obj with
      | .checkout c => handle_checkout_completed db c now
      | _ => db
    else if event_type == "customer.subscription.created" then
      match obj with
      | .subObj s => update_user_subscription db s now
      | _ => db
    else if event_type == "customer.subscription.updated" then
      match obj with
      | .subObj s => update_user_subscription db s now
      | _ => db
    else if event_type == "customer.subscription.deleted" then
      match obj with
      | .subObj s => handle_subscription_deleted db s now
      | _ => db
    else if event_type == "invoice.payment_succeeded" then
      match obj with
      | .invoice i => handle_invoice_paid db i now
      | _ => db
    else if event_type == "invoice.payment_failed" then
      match obj with
      | .invoice i => handle_payment_failed db i now
      | _ => db
    else db
  (db2, { status := "success", event_type := event_type })

/-- Validation errors raised by the checkout endpoints before any call to the
payment provider. -/
inductive ApiError
  | planNotFound
  | duplicateSubscription
  | duplicateLegacySubscription
  | alreadyOwnBiddingPackage
  | alreadyPurchasedPlan
  deriving DecidableEq, Repr

/-- Endpoint create_checkout_session (app/api/v1/endpoints/subscriptions.py):
resolve the plan, reject a duplicate active subscription for that plan (or,
with no plan, an active/trialing legacy status), then call the provider; a
returned ok value stands for the checkout url of the provider call. -/
def create_checkout_endpoint (db : DB) (u : User) (plan_id : Option Nat) :
    Except ApiError String :=
  match plan_id with
  | some pid =>
    match db.planById pid with
    | none => Except.error ApiError.planNotFound
    | some plan =>
      match get_active_subscription db u.id (some plan.id) with
      | some _ => Except.error ApiError.duplicateSubscription
      | none => Except.ok "stripe_checkout_url"
  | none =>
    if u.subscription_status == "active" || u.subscription_status == "trialing" then
      Except.error ApiError.duplicateLegacySubscription
    else Except.ok "stripe_checkout_url"

/-- Endpoint purchase_bidding_package: resolve the plan, reject when the
principal already has bidding-package access, reject a duplicate completed
purchase of that plan, then call the provider. -/
def purchase_bidding_package_endpoint (db : DB) (u : User) (plan_id : Option Nat) :
    Except ApiError String :=
  let planRes : Except ApiError (Option Plan) :=
    match plan_id with
    | some pid =>
      match db.planById pid with
      | none => Except.error ApiError.planNotFound
      | some plan => Except.ok (some plan)
    | none => Except.ok none
  match planRes with
  | Except.error e => Except.error e
  | Except.ok planOpt =>
    if has_bidding_package_access db u then
      Except.error ApiError.alreadyOwnBiddingPackage
    else
      match planOpt with
      | some plan =>
        match get_purchase db u.id plan.id with
        | some _ => Except.error ApiError.alreadyPurchasedPlan
        | none => Except.ok "stripe_checkout_url"
      | none => Except.ok "stripe_checkout_url"

/-- A plan that grants premium_access through its capability set. -/
def planPremium : Plan :=
  { id := 1
    stripe_price_id := "price_prem"
    name := "Premium"
    plan_type := "subscription"
    price_cents := 500
    currency := "usd"
    features := some [("premium_access", true)]
    is_active := true }

/-- A non-superuser principal with free legacy fields. -/
def userFreeLegacy : User :=
  { id := 1
    is_superuser := false
    subscription_tier := "free"
    stripe_customer_id := some "cus_1"
    stripe_subscription_id := none
    subscription_status := "none"
    subscription_current_period_end := none
    subscription_cancel_at_period_end := false
    has_bidding_package := false }

/-- A superuser principal with free legacy fields and no rows. -/
def userSuper : User :=
  { userFreeLegacy with id := 2, is_superuser := true, stripe_customer_id := some "cus_2" }

/-- A completed purchase of the premium-granting plan by user 1. -/
def purchasePremium : Purchase :=
  { id := 20
    user_id := 1
    plan_id := 1
    stripe_payment_intent_id := some "pi_1"
    stripe_checkout_session_id := some "cs_1"
    status := "completed"
    amount_cents := 500
    currency := "usd"
    purchased_at := some 10
    created_at := 5
    updated_at := 10 }

/-- Store for the C1 counterexample: user 1 holds a completed purchase whose
plan grants premium_access, has no subscriptions, and free legacy fields. -/
def dbPurchaseOnly : DB :=
  { users := [userFreeLegacy, userSuper]
    plans := [planPremium]
    subscriptions := []
    purchases := [purchasePremium]
    payments := []
    next_id := 100 }

/-- An active subscription of user 1 to the premium plan, known to the
provider as sub_1. -/
def subActive : Subscription :=
  { id := 10
    user_id := 1
    plan_id := 1
    stripe_subscription_id := some "sub_1"
    status := "active"
    current_period_start := some 10
    current_period_end := some 20
    cancel_at_period_end := false
    canceled_at := none
    ended_at := none
    trial_start := none
    trial_end := none
    created_at := 1
    updated_at := 1 }

/-- Store with user 1 actively subscribed to the premium plan. -/
def dbWithSub : DB :=
  { users := [userFreeLegacy]
    plans := [planPremium]
    subscriptions := [subActive]
    purchases := []
    payments := []
    next_id := 100 }

/-- Store with user 1 and the premium plan but no subscription rows. -/
def dbNoSub : DB :=
  { dbWithSub with subscriptions := [] }

/-- An invoice.payment_failed event for customer cus_1 on subscription sub_1. -/
def invFail : StripeInvoiceEvent :=
  { id := some "in_1"
    customer := some "cus_1"
    subscription := some "sub_1"
    amount_paid := 0
    amount_due := 999
    payment_intent := none
    hosted_invoice_url := none
    invoice_pdf := none
    last_finalization_error := some (some "card_declined") }

/-- A customer.subscription.updated event for cus_1 / sub_1 on the premium
price, provider status active, no scheduled cancellation. -/
def evSubActive : StripeSubscriptionEvent :=
  { id := some "sub_1"
    customer := some "cus_1"
    status := some "active"
    current_period_start := some 10
    current_period_end := some 20
    cancel_at := none
    cancel_at_period_end := false
    trial_start := none
    trial_end := none
    items_price_id := some "price_prem" }

/-- The same subscription event with a scheduled cancel timestamp, so the
handler computes cancel_at_period_end = true. -/
def evSubCancelAt : StripeSubscriptionEvent :=
  { evSubActive with cancel_at := some 30 }

/-- A one-time bidding-package plan. -/
def planBid : Plan :=
  { id := 3
    stripe_price_id := "price_bid"
    name := "Bidding Package"
    plan_type := "one_time"
    price_cents := 1500
    currency := "usd"
    features := some [("bidding_package", true)]
    is_active := true }

/-- A completed purchase of the bidding-package plan by user 1. -/
def purchaseBid : Purchase :=
  { id := 21
    user_id := 1
    plan_id := 3
    stripe_payment_intent_id := some "pi_bid"
    stripe_checkout_session_id := some "cs_bid"
    status := "completed"
    amount_cents := 1500
    currency := "usd"
    purchased_at := some 10
    created_at := 5
    updated_at := 10 }

/-- Store where user 1 already owns the bidding-package plan via a completed
purchase, with no subscriptions. -/
def dbBid : DB :=
  { users := [userFreeLegacy]
    plans := [planBid]
    subscriptions := []
    purchases := [purchaseBid]
    payments := []
    next_id := 100 }

/-- A principal whose legacy fields report an active subscription. -/
def userLegacyActive : User :=
  { userFreeLegacy with
    id := 3
    stripe_customer_id := some "cus_3"
    subscription_tier := "subscriber"
    subscription_status := "active" }

/-- A checkout.session.completed event in payment mode for the bidding package
whose metadata carries no plan id. -/
def csBidNoPlan : StripeCheckoutEvent :=
  { id := some "cs_9"
    customer := some "cus_1"
    subscription := none
    mode := some "payment"
    plan_id := none
    product_type := some "bidding_package"
    payment_intent := some "pi_9"
    amount_total := some 1500 }

/-- C1 counterexample input: the claim predicts the purchase branch grants
premium_access, the code path User.has_premium_access never inspects purchases. -/
theorem C1_counterexample :
    spec_has_feature dbPurchaseOnly userFreeLegacy "premium_access" = true ∧
    has_premium_access dbPurchaseOnly userFreeLegacy = false := by decide

/-- C1 amended: the code resolves entitlement per feature rather than through
one uniform three-branch check.  has_premium_access is superuser OR
active/trialing-subscription-capability OR the legacy tier/status fallback
(purchases are never consulted); has_bidding_package_access is superuser OR
completed-purchase-capability OR the legacy flag (subscriptions are never
consulted); the service-level user_has_feature is exactly
subscription-capability OR purchase-capability with no superuser override and
no legacy fallback. -/
theorem C1_amended (db : DB) (u : User) (key : String) :
    (has_premium_access db u = true ↔
      u.is_superuser = true ∨ ActiveSubGrants db u.id "premium_access" ∨ LegacyPremium u) ∧
    (has_bidding_package_access db u = true ↔
      u.is_superuser = true ∨ CompletedPurchaseGrants db u.id "bidding_package" ∨
        u.has_bidding_package = true) ∧
    (user_has_feature db u.id key = true ↔
      ActiveSubGrants db u.id key ∨ CompletedPurchaseGrants db u.id key) := by
  have hprem : has_premium_access db u =
      (u.is_superuser ||
       (db.userSubscriptions u.id).any (fun s =>
         (s.status == "active" || s.status == "trialing") &&
         planGrants (db.planById s.plan_id) "premium_access") ||
       (u.subscription_tier == "subscriber" &&
        (u.subscription_status == "active" || u.subscription_status == "trialing"))) := by
    unfold has_premium_access
    split_ifs <;> simp_all
  have hbid : has_bidding_package_access db u =
      (u.is_superuser ||
       (db.userPurchases u.id).any (fun p =>
         p.status == "completed" && planGrants (db.planById p.plan_id) "bidding_package") ||
       u.has_bidding_package) := by
    unfold has_bidding_package_access
    split_ifs <;> simp_all
  refine ⟨?_, ?_, ?_⟩
  · rw [hprem]
    unfold ActiveSubGrants LegacyPremium DB.userSubscriptions
    simp only [Bool.or_eq_true, Bool.and_eq_true, beq_iff_eq, List.any_eq_true,
      List.mem_filter]
    aesop
  · rw [hbid]
    unfold CompletedPurchaseGrants DB.userPurchases
    simp only [Bool.or_eq_true, Bool.and_eq_true, beq_iff_eq, List.any_eq_true,
      List.mem_filter]
    aesop
  · unfold user_has_feature ActiveSubGrants CompletedPurchaseGrants
    simp only [Bool.or_eq_true, Bool.and_eq_true, beq_iff_eq, List.any_eq_true,
      List.mem_filter]
    aesop

/-- C4: tier-week policy.  Premium principals are allowed the current data
week W, non-premium principals and absent principals are allowed
max(0, W-1). -/
theorem C4_allowed_data_week (db : DB) (u : User) (W : Int) :
    (has_premium_access db u = true → get_allowed_data_week db (some u) W = W) ∧
    (has_premium_access db u = false →
      get_allowed_data_week db (some u) W = max 0 (W - 1)) ∧
    get_allowed_data_week db none W = max 0 (W - 1) := by
  refine ⟨fun h => ?_, fun h => ?_, rfl⟩
  · simp [get_allowed_data_week, h]
  · simp [get_allowed_data_week, h]

/-- C4 witness: the policy evaluated at week 7 for a premium (superuser)
principal, a free principal, and an absent principal. -/
theorem C4_witness :
    get_allowed_data_week dbPurchaseOnly (some userSuper) 7 = 7 ∧
    get_allowed_data_week dbPurchaseOnly (some userFreeLegacy) 7 = max 0 (7 - 1) ∧
    get_allowed_data_week dbPurchaseOnly none 7 = max 0 (7 - 1) :=
  ⟨(C4_allowed_data_week dbPurchaseOnly userSuper 7).1 (by decide),
   (C4_allowed_data_week dbPurchaseOnly userFreeLegacy 7).2.1 (by decide),
   (C4_allowed_data_week dbPurchaseOnly userFreeLegacy 7).2.2⟩

/-- A user whose legacy one-time-purchase flag is set always has bidding
package access, whatever the rest of the store says. -/
theorem bidding_access_of_flag (db : DB) (u : User) (h : u.has_bidding_package = true) :
    has_bidding_package_access db u = true := by
  unfold has_bidding_package_access
  split_ifs <;> simp_all

/-- C2 counterexample input: reconciling one invoice.payment_failed event for
a known customer and subscription commits an intermediate state (subscription
already past_due, payment-failed history row not yet appended) that is neither
the initial nor the final state, so the event's mutations are not one atomic
unit. -/
theorem C2_counterexample :
    ((handle_payment_failed_tr dbWithSub invFail 50).2.getD 0 dbWithSub ∈
        (handle_payment_failed_tr dbWithSub invFail 50).2) ∧
    (handle_payment_failed_tr dbWithSub invFail 50).2.getD 0 dbWithSub ≠ dbWithSub ∧
    (handle_payment_failed_tr dbWithSub invFail 50).2.getD 0 dbWithSub ≠
      (handle_payment_failed_tr dbWithSub invFail 50).1 ∧
    ((handle_payment_failed_tr dbWithSub invFail 50).2.getD 0 dbWithSub).payments =
      dbWithSub.payments := by decide

/-- C3 counterexample input: user 1 holds a completed Purchase for plan 3, yet
create_checkout_session with that plan reaches the provider call (ok) instead
of rejecting, because that endpoint only checks active subscriptions. -/
theorem C3_counterexample :
    (get_purchase dbBid userFreeLegacy.id 3).isSome = true ∧
    create_checkout_endpoint dbBid userFreeLegacy (some 3) =
      Except.ok "stripe_checkout_url" := ⟨by decide, by rfl⟩

/-- C3 amended: each checkout entry point rejects before the provider call on
its own duplicate-entitlement condition only — create_checkout_session on an
active/trialing Subscription for the requested plan (or, with no plan, on an
active/trialing legacy status), purchase_bidding_package on existing
bidding-package access or a completed Purchase of the requested plan; neither
endpoint checks the other entitlement kind. -/
theorem C3_amended (db : DB) (u : User) (pid : Nat) :
    (∀ plan, db.planById pid = some plan →
      (∃ s ∈ db.subscriptions, s.user_id = u.id ∧
          (s.status = "active" ∨ s.status = "trialing") ∧ s.plan_id = plan.id) →
      create_checkout_endpoint db u (some pid) =
        Except.error ApiError.duplicateSubscription) ∧
    ((u.subscription_status = "active" ∨ u.subscription_status = "trialing") →
      create_checkout_endpoint db u none =
        Except.error ApiError.duplicateLegacySubscription) ∧
    (has_bidding_package_access db u = true →
      ∃ e, purchase_bidding_package_endpoint db u (some pid) = Except.error e) ∧
    (∀ plan, db.planById pid = some plan →
      (∃ p ∈ db.purchases, p.user_id = u.id ∧ p.plan_id = plan.id ∧
          p.status = "completed") →
      ∃ e, purchase_bidding_package_endpoint db u (some pid) = Except.error e) := by
  refine ⟨?_, ?_, ?_, ?_⟩
  · intro plan hplan hex
    have hsome : (db.subscriptions.find? (fun s => s.user_id == u.id &&
        (s.status == "active" || s.status == "trialing") && s.plan_id == plan.id)).isSome := by
      rw [List.find?_isSome]
      obtain ⟨s, hmem, h1, h2, h3⟩ := hex
      refine ⟨s, hmem, ?_⟩
      simp only [Bool.and_eq_true, Bool.or_eq_true, beq_iff_eq]
      exact ⟨⟨h1, h2⟩, h3⟩
    obtain ⟨s0, hs0⟩ := Option.isSome_iff_exists.mp hsome
    have hact : get_active_subscription db u.id (some plan.id) = some s0 := by
      unfold get_active_subscription
      exact hs0
    simp [create_checkout_endpoint, hplan, hact]
  · intro h
    unfold create_checkout_endpoint
    rcases h with h | h <;> simp [h]
  · intro h
    cases hp : db.planById pid with
    | none =>
      exact ⟨ApiError.planNotFound, by simp [purchase_bidding_package_endpoint, hp]⟩
    | some plan =>
      exact ⟨ApiError.alreadyOwnBiddingPackage,
        by simp [purchase_bidding_package_endpoint, hp, h]⟩
  · intro plan hplan hex
    cases hb : has_bidding_package_access db u with
    | true =>
      exact ⟨ApiError.alreadyOwnBiddingPackage,
        by simp [purchase_bidding_package_endpoint, hplan, hb]⟩
    | false =>
      have hsome : (db.purchases.find? (fun p => p.user_id == u.id &&
          p.plan_id == plan.id && p.status == "completed")).isSome := by
        rw [List.find?_isSome]
        obtain ⟨p, hmem, h1, h2, h3⟩ := hex
        refine ⟨p, hmem, ?_⟩
        simp only [Bool.and_eq_true, beq_iff_eq]
        exact ⟨⟨h1, h2⟩, h3⟩
      obtain ⟨p0, hp0⟩ := Option.isSome_iff_exists.mp hsome
      have hgp : get_purchase db u.id plan.id = some p0 := by
        unfold get_purchase
        exact hp0
      exact ⟨ApiError.alreadyPurchasedPlan,
        by simp [purchase_bidding_package_endpoint, hplan, hb, hgp]⟩

/-- C3 witness: the three rejection conditions exercised on concrete stores. -/
theorem C3_witness :
    create_checkout_endpoint dbWithSub userFreeLegacy (some 1) =
      Except.error ApiError.duplicateSubscription ∧
    create_checkout_endpoint dbWithSub userLegacyActive none =
      Except.error ApiError.duplicateLegacySubscription ∧
    (∃ e, purchase_bidding_package_endpoint dbBid userFreeLegacy (some 3) =
      Except.error e) :=
  ⟨(C3_amended dbWithSub userFreeLegacy 1).1 planPremium (by decide)
      ⟨subActive, by decide, by decide, Or.inl (by decide), by decide⟩,
   (C3_amended dbWithSub userLegacyActive 1).2.1 (Or.inl rfl),
   (C3_amended dbBid userFreeLegacy 3).2.2.2 planBid (by decide)
      ⟨purchaseBid, by decide, by decide, by decide, by decide⟩⟩

/-- C9: a verified webhook event whose type is none of the six modeled types
mutates nothing and still reports success to the caller. -/
theorem C9_unknown_event_noop (db : DB) (t : String) (obj : EventObj) (now : Int)
    (h1 : t ≠ "checkout.session.completed")
    (h2 : t ≠ "customer.subscription.created")
    (h3 : t ≠ "customer.subscription.updated")
    (h4 : t ≠ "customer.subscription.deleted")
    (h5 : t ≠ "invoice.payment_succeeded")
    (h6 : t ≠ "invoice.payment_failed") :
    handle_webhook_event db t obj now =
      (db, { status := "success", event_type := t }) := by
  unfold handle_webhook_event
  simp [h1, h2, h3, h4, h5, h6]

/-- C9 witness: a charge.refunded delivery is a reported-success no-op. -/
theorem C9_witness :
    handle_webhook_event dbWithSub "charge.refunded" EventObj.rawData 50 =
      (dbWithSub, { status := "success", event_type := "charge.refunded" }) :=
  C9_unknown_event_noop dbWithSub "charge.refunded" EventObj.rawData 50
    (by decide) (by decide) (by decide) (by decide) (by decide) (by decide)

/-- find? commutes with mapping a function that does not change the value of
the search predicate. -/
theorem find?_map_pres {α : Type} (g : α → α) (p : α → Bool) (l : List α)
    (h : ∀ x, p (g x) = p x) : (l.map g).find? p = (l.find? p).map g := by
  rw [List.find?_map]
  have hpg : p ∘ g = p := funext h
  rw [hpg]

/-- Looking a user up by customer id after an ORM update that does not touch
stripe_customer_id finds the updated row. -/
theorem get_user_after_update (db : DB) (uid : Nat) (f : User → User) (cid : String)
    (hf : ∀ x, (f x).stripe_customer_id = x.stripe_customer_id) :
    get_user_by_customer_id (updateUserRecord db uid f) cid =
      (get_user_by_customer_id db cid).map (fun x => if x.id == uid then f x else x) := by
  unfold get_user_by_customer_id updateUserRecord
  refine find?_map_pres _ _ _ (fun x => ?_)
  cases hx : x.id == uid <;> simp [hx, hf]

/-- C10: on a bidding-package checkout completion for a known customer whose
metadata has no plan id (or whose checkout session matches no purchase), the
legacy flag is still set: no purchase is completed, no payment history row is
appended, the user row gains has_bidding_package = true, and bidding-package
entitlement holds via the legacy fallback. -/
theorem C10_bidding_flag_unconditional (db : DB) (cs : StripeCheckoutEvent) (now : Int)
    (cid : String) (u : User)
    (hc : cs.customer = some cid) (hcne : cid ≠ "")
    (hu : get_user_by_customer_id db cid = some u)
    (hmode : cs.mode = some "payment") (hpt : cs.product_type = some "bidding_package")
    (hmiss : strTruthy cs.plan_id = false ∨
      get_purchase_by_checkout_session db cs.id = none) :
    (handle_checkout_completed db cs now).purchases = db.purchases ∧
    (handle_checkout_completed db cs now).payments = db.payments ∧
    (handle_checkout_completed db cs now).users =
      db.users.map (fun x => if x.id == u.id then
        { x with has_bidding_package := true } else x) ∧
    has_bidding_package_access (handle_checkout_completed db cs now)
      { u with has_bidding_package := true } = true := by
  have hg : strTruthy (some cid) = true := by simp [strTruthy, hcne]
  have hred : handle_checkout_completed db cs now =
      updateUserRecord db u.id (fun x => { x with has_bidding_package := true }) := by
    unfold handle_checkout_completed
    rw [hc]
    simp only [hg, Bool.not_true, Option.getD_some, if_false]
    rw [hu]
    rw [hmode, hpt]
    simp only [beq_self_eq_true, Bool.and_self, if_true]
    rcases hmiss with hm | hm
    · simp [hm]
    · cases hpl : strTruthy cs.plan_id
      · simp
      · have hm2 : get_purchase_by_checkout_session
            (updateUserRecord db u.id (fun x => { x with has_bidding_package := true }))
            cs.id = none := hm
        simp [hm2]
  refine ⟨by simp [hred, updateUserRecord], by simp [hred, updateUserRecord],
    by simp [hred, updateUserRecord], ?_⟩
  exact bidding_access_of_flag _ _ rfl

/-- C10 witness: checkout completion with no plan id in the metadata on the
store where user cus_1 has no matching purchase. -/
theorem C10_witness :
    (handle_checkout_completed dbWithSub csBidNoPlan 50).purchases = dbWithSub.purchases ∧
    (handle_checkout_completed dbWithSub csBidNoPlan 50).payments = dbWithSub.payments ∧
    (handle_checkout_completed dbWithSub csBidNoPlan 50).users =
      dbWithSub.users.map (fun x => if x.id == userFreeLegacy.id then
        { x with has_bidding_package := true } else x) ∧
    has_bidding_package_access (handle_checkout_completed dbWithSub csBidNoPlan 50)
      { userFreeLegacy with has_bidding_package := true } = true :=
  C10_bidding_flag_unconditional dbWithSub csBidNoPlan 50 "cus_1" userFreeLegacy
    rfl (by decide) (by decide) rfl rfl (Or.inl (by decide))

/-- C8: a subscription-deleted event whose external id matches no local
Subscription completes, creates no rows and mutates no table except the user
legacy fields, which are reset to the free/canceled state when the customer id
matches a principal; every other field of that principal is unchanged. -/
theorem C8_deleted_unknown_id (db : DB) (ev : StripeSubscriptionEvent) (now : Int)
    (hnone : get_subscription_by_stripe_id db ev.id = none) :
    (handle_subscription_deleted db ev now).subscriptions = db.subscriptions ∧
    (handle_subscription_deleted db ev now).purchases = db.purchases ∧
    (handle_subscription_deleted db ev now).payments = db.payments ∧
    (handle_subscription_deleted db ev now).plans = db.plans ∧
    (handle_subscription_deleted db ev now).next_id = db.next_id ∧
    (∀ cid u, ev.customer = some cid → cid ≠ "" →
      get_user_by_customer_id db cid = some u →
      get_user_by_customer_id (handle_subscription_deleted db ev now) cid =
        some { u with
          subscription_tier := "free"
          subscription_status := "canceled"
          stripe_subscription_id := none
          subscription_current_period_end := none
          subscription_cancel_at_period_end := false }) := by
  have hred : (handle_subscription_deleted db ev now = db ∧
      (strTruthy ev.customer = false ∨
        get_user_by_customer_id db (ev.customer.getD "") = none)) ∨
      ∃ u0, get_user_by_customer_id db (ev.customer.getD "") = some u0 ∧
        handle_subscription_deleted db ev now = updateUserRecord db u0.id (fun x =>
          { x with
            subscription_tier := "free"
            subscription_status := "canceled"
            stripe_subscription_id := none
            subscription_current_period_end := none
            subscription_cancel_at_period_end := false }) := by
    unfold handle_subscription_deleted
    cases hg : strTruthy ev.customer
    · simp
    · simp only [hg, Bool.not_true, if_false]
      cases hu0 : get_user_by_customer_id db (ev.customer.getD "")
      · simp
      · rename_i u0
        right
        refine ⟨u0, rfl, ?_⟩
        have hn : (if strTruthy ev.id then
            get_subscription_by_stripe_id (updateUserRecord db u0.id (fun x =>
              { x with
                subscription_tier := "free"
                subscription_status := "canceled"
                stripe_subscription_id := none
                subscription_current_period_end := none
                subscription_cancel_at_period_end := false })) ev.id
            else none) = none := by
          cases hst : strTruthy ev.id
          · simp
          · simpa using hnone
        simp [hn]
  have hmain : ∀ cid u, ev.customer = some cid → cid ≠ "" →
      get_user_by_customer_id db cid = some u →
      get_user_by_customer_id (handle_subscription_deleted db ev now) cid =
        some { u with
          subscription_tier := "free"
          subscription_status := "canceled"
          stripe_subscription_id := none
          subscription_current_period_end := none
          subscription_cancel_at_period_end := false } := by
    intro cid u hc hcne hu
    rcases hred with ⟨hk, hwhy⟩ | ⟨u0, hu0, hk⟩
    · exfalso
      rcases hwhy with hw | hw
      · rw [hc] at hw
        simp [strTruthy, hcne] at hw
      · rw [hc, Option.getD_some, hu] at hw
        exact Option.noConfusion hw
    · rw [hc, Option.getD_some, hu] at hu0
      obtain rfl := Option.some.inj hu0
      rw [hk, get_user_after_update]
      · rw [hu]
        simp
      · intro x
        rfl
  refine ⟨?_, ?_, ?_, ?_, ?_, hmain⟩ <;>
    (rcases hred with ⟨hk, _⟩ | ⟨u0, _, hk⟩ <;> simp [hk, updateUserRecord])

/-- C8 witness: deletion event sub_1 against the store with no subscription
rows; the principal found by cus_1 is reset, nothing else changes. -/
theorem C8_witness :
    (handle_subscription_deleted dbNoSub evSubActive 50).subscriptions =
      dbNoSub.subscriptions ∧
    (handle_subscription_deleted dbNoSub evSubActive 50).payments = dbNoSub.payments ∧
    get_user_by_customer_id (handle_subscription_deleted dbNoSub evSubActive 50) "cus_1" =
      some { userFreeLegacy with
        subscription_tier := "free"
        subscription_status := "canceled"
        stripe_subscription_id := none
        subscription_current_period_end := none
        subscription_cancel_at_period_end := false } :=
  ⟨(C8_deleted_unknown_id dbNoSub evSubActive 50 (by decide)).1,
   (C8_deleted_unknown_id dbNoSub evSubActive 50 (by decide)).2.2.1,
   (C8_deleted_unknown_id dbNoSub evSubActive 50 (by decide)).2.2.2.2.2
     "cus_1" userFreeLegacy rfl (by decide) (by decide)⟩

/-- C7: invoice.payment_failed for a known customer and a known subscription:
the Subscription row moves to past_due with only status and updated_at
touched, exactly one payment_failed/failed PaymentHistory row correlated to
that subscription is appended (failure reason from the provider error detail
when present), and the principal's legacy status becomes past_due. -/
theorem C7_payment_failed (db : DB) (inv : StripeInvoiceEvent) (now : Int)
    (cid : String) (u : User) (sub : Subscription)
    (hc : inv.customer = some cid) (hcne : cid ≠ "")
    (hu : get_user_by_customer_id db cid = some u)
    (hstr : strTruthy inv.subscription = true)
    (hsub : get_subscription_by_stripe_id db inv.subscription = some sub) :
    (handle_payment_failed db inv now).subscriptions =
      db.subscriptions.map (fun s => if s.id == sub.id then
        { s with status := "past_due", updated_at := now } else s) ∧
    (handle_payment_failed db inv now).payments = db.payments ++
      [{ user_id := u.id
         subscription_id := some sub.id
         purchase_id := none
         stripe_invoice_id := inv.id
         stripe_payment_intent_id := none
         stripe_charge_id := none
         event_type := "payment_failed"
         amount_cents := inv.amount_due
         currency := "usd"
         status := "failed"
         failure_reason := (match inv.last_finalization_error with
           | none => none
           | some m => m)
         refund_reason := none
         invoice_url := none
         receipt_url := none }] ∧
    (handle_payment_failed db inv now).users =
      db.users.map (fun x => if x.id == u.id then
        { x with subscription_status := "past_due" } else x) := by
  have hg : strTruthy (some cid) = true := by simp [strTruthy, hcne]
  have hsubOpt : (if strTruthy inv.subscription then
      get_subscription_by_stripe_id
        (updateUserRecord db u.id (fun x => { x with subscription_status := "past_due" }))
        inv.subscription
      else none) = some sub := by
    rw [hstr]
    simpa using hsub
  have hred : handle_payment_failed db inv now =
      record_payment
        (update_subscription_status
          (updateUserRecord db u.id (fun x => { x with subscription_status := "past_due" }))
          sub.id "past_due" none none none none none now)
        u.id "payment_failed" inv.amount_due "failed" (some sub.id) none inv.id
        none none none
        (match inv.last_finalization_error with | none => none | some m => m) := by
    unfold handle_payment_failed handle_payment_failed_tr
    rw [hc]
    simp only [hg, Bool.not_true, Option.getD_some, if_false]
    rw [hu]
    simp [hsubOpt]
  refine ⟨?_, ?_, ?_⟩
  · rw [hred]
    show (update_subscription_status _ sub.id "past_due"
        none none none none none now).subscriptions = _
    unfold update_subscription_status updateUserRecord
    simp [optUpd]
  · rw [hred]
    unfold record_payment update_subscription_status updateUserRecord
    simp
  · rw [hred]
    unfold record_payment update_subscription_status updateUserRecord
    simp

/-- C7 witness: the failed-invoice event for cus_1 / sub_1 on the store with
the active subscription; the principal's legacy status becomes past_due. -/
theorem C7_witness :
    (handle_payment_failed dbWithSub invFail 50).users =
      dbWithSub.users.map (fun x => if x.id == userFreeLegacy.id then
        { x with subscription_status := "past_due" } else x) :=
  (C7_payment_failed dbWithSub invFail 50 "cus_1" userFreeLegacy subActive
    rfl (by decide) (by decide) (by decide) (by decide)).2.2

/-- C6: on a subscription created/updated event for a known customer, the
provider status is mapped by the fixed table and the legacy fields are
dual-written: tier is subscriber exactly when the mapped status is active or
trialing (free otherwise), legacy status equals the mapped status, legacy
period end prefers the provider period end and falls back to the scheduled
cancel timestamp (otherwise keeping its old value), and the legacy cancel
flag is the provider flag OR the presence of a scheduled cancel timestamp. -/
theorem C6_subscription_event_dual_write (db : DB) (ev : StripeSubscriptionEvent)
    (now : Int) (cid : String) (u : User)
    (hc : ev.customer = some cid) (hcne : cid ≠ "")
    (hu : get_user_by_customer_id db cid = some u) :
    (status_map "active" = "active" ∧ status_map "trialing" = "trialing" ∧
     status_map "past_due" = "past_due" ∧ status_map "canceled" = "canceled" ∧
     status_map "unpaid" = "past_due" ∧ status_map "incomplete" = "none" ∧
     status_map "incomplete_expired" = "none") ∧
    ∃ u2, get_user_by_customer_id (update_user_subscription db ev now) cid = some u2 ∧
      u2.subscription_status = status_map (ev.status.getD "") ∧
      (u2.subscription_tier = "subscriber" ↔
        (status_map (ev.status.getD "") = "active" ∨
         status_map (ev.status.getD "") = "trialing")) ∧
      (u2.subscription_tier = "subscriber" ∨ u2.subscription_tier = "free") ∧
      u2.subscription_current_period_end =
        (if intTruthy ev.current_period_end then pyTs ev.current_period_end
         else if intTruthy ev.cancel_at then pyTs ev.cancel_at
         else u.subscription_current_period_end) ∧
      u2.subscription_cancel_at_period_end =
        (ev.cancel_at_period_end || ev.cancel_at.isSome) := by
  have hg : strTruthy (some cid) = true := by simp [strTruthy, hcne]
  have husers : (update_user_subscription db ev now).users =
      (updateUserRecord db u.id (legacySubUpdate ev (status_map (ev.status.getD ""))
        (ev.cancel_at_period_end || ev.cancel_at.isSome))).users := by
    unfold update_user_subscription update_user_subscription_tr
    rw [hc, if_neg (by simp [hg])]
    simp only [Option.getD_some]
    rw [hu]
    split
    · rename_i h
      exact absurd h (by simp)
    · rename_i u2 h
      obtain rfl := Option.some.inj h
      split
      · rfl
      · split
        · unfold update_subscription_status
          rfl
        · unfold create_subscription
          rfl
  have hfind : get_user_by_customer_id (update_user_subscription db ev now) cid =
      get_user_by_customer_id (updateUserRecord db u.id
        (legacySubUpdate ev (status_map (ev.status.getD ""))
          (ev.cancel_at_period_end || ev.cancel_at.isSome))) cid := by
    unfold get_user_by_customer_id
    rw [husers]
  refine ⟨by decide, ?_⟩
  refine ⟨legacySubUpdate ev (status_map (ev.status.getD ""))
    (ev.cancel_at_period_end || ev.cancel_at.isSome) u, ?_, rfl, ?_, ?_, rfl, rfl⟩
  · rw [hfind, get_user_after_update]
    · rw [hu]
      simp
    · intro x
      rfl
  · have htier : (legacySubUpdate ev (status_map (ev.status.getD ""))
        (ev.cancel_at_period_end || ev.cancel_at.isSome) u).subscription_tier =
        (if status_map (ev.status.getD "") == "active" ||
            status_map (ev.status.getD "") == "trialing"
         then "subscriber" else "free") := rfl
    rw [htier]
    cases hm : (status_map (ev.status.getD "") == "active" ||
        status_map (ev.status.getD "") == "trialing")
    · rw [if_neg (by simp [hm])]
      constructor
      · intro h
        exact absurd h (by decide)
      · intro h
        simp only [Bool.or_eq_false_iff, beq_eq_false_iff_ne] at hm
        rcases h with h | h
        · exact absurd h hm.1
        · exact absurd h hm.2
    · rw [if_pos (by simp [hm])]
      simp only [Bool.or_eq_true, beq_iff_eq] at hm
      simpa using hm
  · have htier : (legacySubUpdate ev (status_map (ev.status.getD ""))
        (ev.cancel_at_period_end || ev.cancel_at.isSome) u).subscription_tier =
        (if status_map (ev.status.getD "") == "active" ||
            status_map (ev.status.getD "") == "trialing"
         then "subscriber" else "free") := rfl
    rw [htier]
    cases hm : (status_map (ev.status.getD "") == "active" ||
        status_map (ev.status.getD "") == "trialing")
    · rw [if_neg (by simp [hm])]
      right
      rfl
    · rw [if_pos (by simp [hm])]
      left
      rfl

/-- C6 witness: the active-status event for cus_1 applied to the store with an
existing subscription row. -/
theorem C6_witness :
    ∃ u2, get_user_by_customer_id (update_user_subscription dbWithSub evSubActive 50)
        "cus_1" = some u2 ∧
      u2.subscription_status = status_map (evSubActive.status.getD "") ∧
      (u2.subscription_tier = "subscriber" ↔
        (status_map (evSubActive.status.getD "") = "active" ∨
         status_map (evSubActive.status.getD "") = "trialing")) ∧
      (u2.subscription_tier = "subscriber" ∨ u2.subscription_tier = "free") ∧
      u2.subscription_current_period_end =
        (if intTruthy evSubActive.current_period_end then pyTs evSubActive.current_period_end
         else if intTruthy evSubActive.cancel_at then pyTs evSubActive.cancel_at
         else userFreeLegacy.subscription_current_period_end) ∧
      u2.subscription_cancel_at_period_end =
        (evSubActive.cancel_at_period_end || evSubActive.cancel_at.isSome) :=
  (C6_subscription_event_dual_write dbWithSub evSubActive 50 "cus_1" userFreeLegacy
    rfl (by decide) (by decide)).2

/-- C2 amended: reconciliation of a subscription created/updated event is
atomic — every state it commits equals its final state, because the legacy
principal fields are mutated before the first commit and each commit flushes
the whole session.  (Other handlers commit more than once per event, see the
C2 counterexample: payment-failed commits the subscription transition before
the PaymentHistory append.) -/
theorem C2_amended (db : DB) (ev : StripeSubscriptionEvent) (now : Int) :
    ∀ c ∈ (update_user_subscription_tr db ev now).2,
      c = (update_user_subscription_tr db ev now).1 := by
  intro c hc
  by_cases hg : strTruthy ev.customer = true
  case neg =>
    have h : update_user_subscription_tr db ev now = (db, []) := by
      unfold update_user_subscription_tr
      rw [if_pos (by simp [hg])]
    rw [h] at hc
    simp at hc
  case pos =>
    obtain ⟨cid, hcid⟩ : ∃ cid, ev.customer = some cid := by
      cases hev : ev.customer
      · rw [hev] at hg
        simp [strTruthy] at hg
      · exact ⟨_, rfl⟩
    have hg2 : strTruthy (some cid) = true := by
      rw [← hcid]
      exact hg
    cases hu : get_user_by_customer_id db cid with
    | none =>
      have h : update_user_subscription_tr db ev now = (db, []) := by
        unfold update_user_subscription_tr
        rw [hcid, if_neg (by simp [hg2])]
        simp only [Option.getD_some]
        rw [hu]
      rw [h] at hc
      simp at hc
    | some u =>
      have h : (update_user_subscription_tr db ev now).2 =
          [(update_user_subscription_tr db ev now).1] ∨
          (update_user_subscription_tr db ev now).2 =
          [(update_user_subscription_tr db ev now).1,
           (update_user_subscription_tr db ev now).1] := by
        unfold update_user_subscription_tr
        rw [hcid, if_neg (by simp [hg2])]
        simp only [Option.getD_some]
        rw [hu]
        split
        · rename_i hval
          exact absurd hval (by simp)
        · repeat' split
          all_goals first
            | (left; rfl)
            | (right; rfl)
      rcases h with h | h <;> rw [h] at hc <;> simp at hc <;> simp [hc]

/-- C2 amended witness: the single committed state of a concrete
subscription-updated reconciliation is its final state. -/
theorem C2_amended_witness :
    (update_user_subscription_tr dbWithSub evSubActive 50).2.getD 0 dbWithSub =
      (update_user_subscription_tr dbWithSub evSubActive 50).1 :=
  C2_amended dbWithSub evSubActive 50 _ (by decide)

/-- optUpd with equal stored and passed value is the identity. -/
theorem optUpd_self {α : Type} (x : Option α) : optUpd x x = x := by
  cases x <;> rfl

/-- optUpd applied twice with the same argument collapses. -/
theorem optUpd_optUpd {α : Type} (a b : Option α) : optUpd (optUpd a b) b = optUpd a b := by
  cases b <;> rfl

/-- Option.getD applied twice with the same optional value collapses. -/
theorem getD_getD {α : Type} (a : Option α) (x : α) : a.getD (a.getD x) = a.getD x := by
  cases a <;> rfl

/-- Plan lookups only read the plans table. -/
theorem get_plan_congr (db1 db2 : DB) (h : db1.plans = db2.plans) (price : String) :
    get_plan_by_stripe_price_id db1 price = get_plan_by_stripe_price_id db2 price := by
  unfold get_plan_by_stripe_price_id
  rw [h]

/-- Subscription lookups by external id only read the subscriptions table. -/
theorem get_sub_congr (db1 db2 : DB) (h : db1.subscriptions = db2.subscriptions)
    (sid : Option String) :
    get_subscription_by_stripe_id db1 sid = get_subscription_by_stripe_id db2 sid := by
  unfold get_subscription_by_stripe_id
  cases sid <;> simp [h]

/-- User lookups by customer id only read the users table. -/
theorem get_user_congr (db1 db2 : DB) (h : db1.users = db2.users) (cid : String) :
    get_user_by_customer_id db1 cid = get_user_by_customer_id db2 cid := by
  unfold get_user_by_customer_id
  rw [h]

/-- Mapping a per-row update over the same list twice equals mapping it once
when the pointwise update is idempotent. -/
theorem map_apply_idem {α : Type} (g : α → α) (l : List α) (hg : ∀ x, g (g x) = g x) :
    (l.map g).map g = l.map g := by
  rw [List.map_map]
  exact List.map_congr_left (fun x _ => hg x)

/-- The guarded per-row form of an idempotent, id-preserving row update is
itself idempotent. -/
theorem guard_update_idem {uid : Nat} (f : User → User)
    (hid : ∀ x, (f x).id = x.id) (hff : ∀ x, f (f x) = f x) (x : User) :
    (fun y => if y.id == uid then f y else y)
        ((fun y => if y.id == uid then f y else y) x) =
      (fun y => if y.id == uid then f y else y) x := by
  cases hx : (x.id == uid)
  · simp [hx]
  · simp [hx, hid, hff]

/-- Applying the same user-row update twice equals applying it once. -/
theorem updateUserRecord_idem (db : DB) (uid : Nat) (f : User → User)
    (hid : ∀ x, (f x).id = x.id) (hff : ∀ x, f (f x) = f x) :
    updateUserRecord (updateUserRecord db uid f) uid f = updateUserRecord db uid f := by
  unfold updateUserRecord
  congr 1
  exact map_apply_idem _ _ (guard_update_idem f hid hff)

/-- A user-row update that changes nothing on the rows it touches is absorbed. -/
theorem updateUserRecord_absorb (db : DB) (uid : Nat) (f : User → User)
    (h : db.users.map (fun x => if x.id == uid then f x else x) = db.users) :
    updateUserRecord db uid f = db := by
  unfold updateUserRecord
  rw [h]

/-- The legacy dual-write of a subscription event is idempotent on a user row. -/
theorem legacySubUpdate_idem (ev : StripeSubscriptionEvent) (m : String) (c : Bool)
    (x : User) :
    legacySubUpdate ev m c (legacySubUpdate ev m c x) = legacySubUpdate ev m c x := by
  unfold legacySubUpdate
  cases h1 : intTruthy ev.current_period_end <;> cases h2 : intTruthy ev.cancel_at <;>
    simp [h1, h2]

/-- Applying the same subscription-row status update twice equals applying it
once. -/
theorem update_subscription_status_idem (db : DB) (sid : Nat) (st : String)
    (cps cpe : Option Int) (cape : Option Bool) (ca ea : Option Int) (now : Int) :
    update_subscription_status
        (update_subscription_status db sid st cps cpe cape ca ea now)
        sid st cps cpe cape ca ea now =
      update_subscription_status db sid st cps cpe cape ca ea now := by
  unfold update_subscription_status
  congr 1
  rw [List.map_map]
  refine List.map_congr_left (fun x _ => ?_)
  by_cases hx : x.id = sid
  · simp [hx, optUpd_optUpd, getD_getD]
  · simp [hx]

/-- The subscriptions table after a status update, explicitly. -/
theorem update_subscription_status_subs (db : DB) (sid : Nat) (st : String)
    (cps cpe : Option Int) (cape : Option Bool) (ca ea : Option Int) (now : Int) :
    (update_subscription_status db sid st cps cpe cape ca ea now).subscriptions =
      db.subscriptions.map (fun s => if s.id == sid then
        { s with
          status := st
          updated_at := now
          current_period_start := optUpd s.current_period_start cps
          current_period_end := optUpd s.current_period_end cpe
          cancel_at_period_end := cape.getD s.cancel_at_period_end
          canceled_at := optUpd s.canceled_at ca
          ended_at := optUpd s.ended_at ea } else s) := rfl

/-- Path-explicit form of the subscription created/updated reconciliation once
the customer is known: the legacy dual-write always happens, and the
authoritative row is updated or created only when the price maps to a plan. -/
theorem update_user_subscription_cases (db : DB) (ev : StripeSubscriptionEvent)
    (now : Int) (cid : String) (u : User)
    (hcid : ev.customer = some cid) (hg2 : strTruthy (some cid) = true)
    (hu : get_user_by_customer_id db cid = some u) :
    update_user_subscription db ev now =
      (match (if strTruthy ev.items_price_id then
          get_plan_by_stripe_price_id db (ev.items_price_id.getD "") else none) with
      | none => updateUserRecord db u.id (legacySubUpdate ev (status_map (ev.status.getD ""))
          (ev.cancel_at_period_end || ev.cancel_at.isSome))
      | some plan =>
        match get_subscription_by_stripe_id db ev.id with
        | some sub =>
          update_subscription_status
            (updateUserRecord db u.id (legacySubUpdate ev (status_map (ev.status.getD ""))
              (ev.cancel_at_period_end || ev.cancel_at.isSome)))
            sub.id (status_map (ev.status.getD ""))
            (pyTs ev.current_period_start) (pyTs ev.current_period_end)
            (some (ev.cancel_at_period_end || ev.cancel_at.isSome)) none none now
        | none =>
          create_subscription
            (updateUserRecord db u.id (legacySubUpdate ev (status_map (ev.status.getD ""))
              (ev.cancel_at_period_end || ev.cancel_at.isSome)))
            u.id plan.id ev.id (status_map (ev.status.getD ""))
            (pyTs ev.current_period_start) (pyTs ev.current_period_end)
            (pyTs ev.trial_start) (pyTs ev.trial_end) now) := by
  unfold update_user_subscription update_user_subscription_tr
  rw [hcid, if_neg (by simp [hg2])]
  simp only [Option.getD_some]
  rw [hu]
  split
  · rename_i hval
    exact absurd hval (by simp)
  · rename_i u2 hval
    obtain rfl := Option.some.inj hval
    rw [get_plan_congr (updateUserRecord db u.id (legacySubUpdate ev
        (status_map (ev.status.getD "")) (ev.cancel_at_period_end || ev.cancel_at.isSome)))
      db rfl]
    rw [get_sub_congr (updateUserRecord db u.id (legacySubUpdate ev
        (status_map (ev.status.getD "")) (ev.cancel_at_period_end || ev.cancel_at.isSome)))
      db rfl]
    split
    · rfl
    · split <;> rfl

/-- The subscription-row rewrite of a status update leaves every row it
touches with its stripe subscription id unchanged. -/
theorem status_update_keeps_stripe_id (sid : Nat) (st : String)
    (cps cpe : Option Int) (cape : Option Bool) (ca ea : Option Int) (now : Int)
    (s : Subscription) :
    ((fun s => if s.id == sid then
        { s with
          status := st
          updated_at := now
          current_period_start := optUpd s.current_period_start cps
          current_period_end := optUpd s.current_period_end cpe
          cancel_at_period_end := cape.getD s.cancel_at_period_end
          canceled_at := optUpd s.canceled_at ca
          ended_at := optUpd s.ended_at ea } else s) s).stripe_subscription_id =
      s.stripe_subscription_id := by
  cases hs : (s.id == sid) <;> simp [hs]

/-- A subscription-row status update with no visible effect is absorbed. -/
theorem update_subscription_status_absorb (db : DB) (sid : Nat) (st : String)
    (cps cpe : Option Int) (cape : Option Bool) (ca ea : Option Int) (now : Int)
    (h : db.subscriptions.map (fun s => if s.id == sid then
        { s with
          status := st
          updated_at := now
          current_period_start := optUpd s.current_period_start cps
          current_period_end := optUpd s.current_period_end cpe
          cancel_at_period_end := cape.getD s.cancel_at_period_end
          canceled_at := optUpd s.canceled_at ca
          ended_at := optUpd s.ended_at ea } else s) = db.subscriptions) :
    update_subscription_status db sid st cps cpe cape ca ea now = db := by
  unfold update_subscription_status
  rw [h]

/-- C5 counterexample input: applying the same subscription-updated event
(with a scheduled cancel timestamp) twice from a state with no subscription
row differs from applying it once — the create path stores the default
cancel_at_period_end = false, the replay's update path sets it to true. -/
theorem C5_counterexample :
    update_user_subscription (update_user_subscription dbNoSub evSubCancelAt 7)
        evSubCancelAt 7 ≠
      update_user_subscription dbNoSub evSubCancelAt 7 := by decide


/-- C5 amended: structural subscription events (created/updated and deleted)
never append PaymentHistory rows; and replaying a subscription-updated event
is idempotent on the whole store provided the event carries a subscription id,
its computed cancel-at-period-end flag is false, and the store's fresh row id
is unused — the counterexample shows the remaining case (create path with a
true computed cancel flag) genuinely differs on cancel_at_period_end. -/
theorem C5_amended (db : DB) (ev : StripeSubscriptionEvent) (now : Int) :
    ((update_user_subscription db ev now).payments = db.payments ∧
     (handle_subscription_deleted db ev now).payments = db.payments) ∧
    ((ev.cancel_at_period_end || ev.cancel_at.isSome) = false →
      ev.id.isSome = true →
      (∀ s ∈ db.subscriptions, s.id ≠ db.next_id) →
      update_user_subscription (update_user_subscription db ev now) ev now =
        update_user_subscription db ev now) := by
  refine ⟨⟨?_, ?_⟩, ?_⟩
  · unfold update_user_subscription update_user_subscription_tr
    dsimp only
    repeat' split
    all_goals rfl
  · unfold handle_subscription_deleted
    dsimp only
    repeat' split
    all_goals rfl
  intro hcape hid0 hfresh
  by_cases hg : strTruthy ev.customer = true
  case neg =>
    have hA : update_user_subscription db ev now = db := by
      unfold update_user_subscription update_user_subscription_tr
      rw [if_pos (by simp [hg])]
    rw [hA]
    exact hA
  case pos =>
  obtain ⟨cid, hcid⟩ : ∃ cid, ev.customer = some cid := by
    cases hev : ev.customer
    · rw [hev] at hg
      simp [strTruthy] at hg
    · exact ⟨_, rfl⟩
  have hg2 : strTruthy (some cid) = true := by
    rw [← hcid]
    exact hg
  cases hu : get_user_by_customer_id db cid with
  | none =>
    have hB : update_user_subscription db ev now = db := by
      unfold update_user_subscription update_user_subscription_tr
      rw [hcid, if_neg (by simp [hg2])]
      simp only [Option.getD_some]
      rw [hu]
    rw [hB]
    exact hB
  | some u =>
  obtain ⟨i, hi⟩ := Option.isSome_iff_exists.mp hid0
  have hu2 : get_user_by_customer_id (updateUserRecord db u.id (legacySubUpdate ev (status_map (ev.status.getD "")) (ev.cancel_at_period_end || ev.cancel_at.isSome))) cid = some ((legacySubUpdate ev (status_map (ev.status.getD "")) (ev.cancel_at_period_end || ev.cancel_at.isSome)) u) := by
    rw [get_user_after_update]
    · rw [hu]
      simp
    · intro x
      rfl
  have hKey := update_user_subscription_cases db ev now cid u hcid hg2 hu
  cases hpl : (if strTruthy ev.items_price_id then
      get_plan_by_stripe_price_id db (ev.items_price_id.getD "") else none) with
  | none =>
    rw [hpl] at hKey
    have hKeyA : update_user_subscription db ev now = updateUserRecord db u.id (legacySubUpdate ev (status_map (ev.status.getD "")) (ev.cancel_at_period_end || ev.cancel_at.isSome)) := hKey
    have hKey2 := update_user_subscription_cases (updateUserRecord db u.id (legacySubUpdate ev (status_map (ev.status.getD "")) (ev.cancel_at_period_end || ev.cancel_at.isSome))) ev now cid ((legacySubUpdate ev (status_map (ev.status.getD "")) (ev.cancel_at_period_end || ev.cancel_at.isSome)) u) hcid hg2 hu2
    rw [get_plan_congr (updateUserRecord db u.id (legacySubUpdate ev (status_map (ev.status.getD "")) (ev.cancel_at_period_end || ev.cancel_at.isSome))) db rfl] at hKey2
    rw [hpl] at hKey2
    have hKeyB : update_user_subscription (updateUserRecord db u.id (legacySubUpdate ev (status_map (ev.status.getD "")) (ev.cancel_at_period_end || ev.cancel_at.isSome))) ev now =
        updateUserRecord (updateUserRecord db u.id (legacySubUpdate ev (status_map (ev.status.getD "")) (ev.cancel_at_period_end || ev.cancel_at.isSome))) u.id (legacySubUpdate ev (status_map (ev.status.getD "")) (ev.cancel_at_period_end || ev.cancel_at.isSome)) := hKey2
    rw [hKeyA, hKeyB]
    exact updateUserRecord_idem db u.id (legacySubUpdate ev (status_map (ev.status.getD "")) (ev.cancel_at_period_end || ev.cancel_at.isSome)) (fun x => rfl) (legacySubUpdate_idem ev _ _)
  | some plan =>
    rw [hpl] at hKey
    cases hsub : get_subscription_by_stripe_id db ev.id with
    | some sub =>
      have hKeyA : update_user_subscription db ev now = update_subscription_status (updateUserRecord db u.id (legacySubUpdate ev (status_map (ev.status.getD "")) (ev.cancel_at_period_end || ev.cancel_at.isSome))) sub.id (status_map (ev.status.getD "")) (pyTs ev.current_period_start) (pyTs ev.current_period_end) (some (ev.cancel_at_period_end || ev.cancel_at.isSome)) none none now := by
        rw [hsub] at hKey
        exact hKey
      have hfind0 : db.subscriptions.find?
          (fun s => s.stripe_subscription_id == some i) = some sub := by
        rw [hi] at hsub
        simpa [get_subscription_by_stripe_id] using hsub
      have huX : get_user_by_customer_id (update_subscription_status (updateUserRecord db u.id (legacySubUpdate ev (status_map (ev.status.getD "")) (ev.cancel_at_period_end || ev.cancel_at.isSome))) sub.id (status_map (ev.status.getD "")) (pyTs ev.current_period_start) (pyTs ev.current_period_end) (some (ev.cancel_at_period_end || ev.cancel_at.isSome)) none none now) cid = some ((legacySubUpdate ev (status_map (ev.status.getD "")) (ev.cancel_at_period_end || ev.cancel_at.isSome)) u) := hu2
      have hKey2 := update_user_subscription_cases (update_subscription_status (updateUserRecord db u.id (legacySubUpdate ev (status_map (ev.status.getD "")) (ev.cancel_at_period_end || ev.cancel_at.isSome))) sub.id (status_map (ev.status.getD "")) (pyTs ev.current_period_start) (pyTs ev.current_period_end) (some (ev.cancel_at_period_end || ev.cancel_at.isSome)) none none now) ev now cid ((legacySubUpdate ev (status_map (ev.status.getD "")) (ev.cancel_at_period_end || ev.cancel_at.isSome)) u) hcid hg2 huX
      rw [get_plan_congr (update_subscription_status (updateUserRecord db u.id (legacySubUpdate ev (status_map (ev.status.getD "")) (ev.cancel_at_period_end || ev.cancel_at.isSome))) sub.id (status_map (ev.status.getD "")) (pyTs ev.current_period_start) (pyTs ev.current_period_end) (some (ev.cancel_at_period_end || ev.cancel_at.isSome)) none none now) db rfl] at hKey2
      rw [hpl] at hKey2
      have hsub2 : get_subscription_by_stripe_id (update_subscription_status (updateUserRecord db u.id (legacySubUpdate ev (status_map (ev.status.getD "")) (ev.cancel_at_period_end || ev.cancel_at.isSome))) sub.id (status_map (ev.status.getD "")) (pyTs ev.current_period_start) (pyTs ev.current_period_end) (some (ev.cancel_at_period_end || ev.cancel_at.isSome)) none none now) ev.id =
          some (((fun s => if s.id == sub.id then { s with status := status_map (ev.status.getD ""), updated_at := now, current_period_start := optUpd s.current_period_start (pyTs ev.current_period_start), current_period_end := optUpd s.current_period_end (pyTs ev.current_period_end), cancel_at_period_end := (some (ev.cancel_at_period_end || ev.cancel_at.isSome)).getD s.cancel_at_period_end, canceled_at := optUpd s.canceled_at none, ended_at := optUpd s.ended_at none } else s)) sub) := by
        rw [hi]
        show (update_subscription_status (updateUserRecord db u.id (legacySubUpdate ev (status_map (ev.status.getD "")) (ev.cancel_at_period_end || ev.cancel_at.isSome))) sub.id (status_map (ev.status.getD "")) (pyTs ev.current_period_start) (pyTs ev.current_period_end) (some (ev.cancel_at_period_end || ev.cancel_at.isSome)) none none now).subscriptions.find?
          (fun s => s.stripe_subscription_id == some i) = _
        rw [update_subscription_status_subs]
        have hYsub : (updateUserRecord db u.id (legacySubUpdate ev (status_map (ev.status.getD "")) (ev.cancel_at_period_end || ev.cancel_at.isSome))).subscriptions = db.subscriptions := rfl
        rw [hYsub]
        rw [find?_map_pres _ _ _ (fun s => by
          rw [status_update_keeps_stripe_id])]
        rw [hfind0]
        rfl
      rw [hsub2] at hKey2
      have hKeyB : update_user_subscription (update_subscription_status (updateUserRecord db u.id (legacySubUpdate ev (status_map (ev.status.getD "")) (ev.cancel_at_period_end || ev.cancel_at.isSome))) sub.id (status_map (ev.status.getD "")) (pyTs ev.current_period_start) (pyTs ev.current_period_end) (some (ev.cancel_at_period_end || ev.cancel_at.isSome)) none none now) ev now =
          update_subscription_status (updateUserRecord (update_subscription_status (updateUserRecord db u.id (legacySubUpdate ev (status_map (ev.status.getD "")) (ev.cancel_at_period_end || ev.cancel_at.isSome))) sub.id (status_map (ev.status.getD "")) (pyTs ev.current_period_start) (pyTs ev.current_period_end) (some (ev.cancel_at_period_end || ev.cancel_at.isSome)) none none now) u.id (legacySubUpdate ev (status_map (ev.status.getD "")) (ev.cancel_at_period_end || ev.cancel_at.isSome)))
            (((fun s => if s.id == sub.id then { s with status := status_map (ev.status.getD ""), updated_at := now, current_period_start := optUpd s.current_period_start (pyTs ev.current_period_start), current_period_end := optUpd s.current_period_end (pyTs ev.current_period_end), cancel_at_period_end := (some (ev.cancel_at_period_end || ev.cancel_at.isSome)).getD s.cancel_at_period_end, canceled_at := optUpd s.canceled_at none, ended_at := optUpd s.ended_at none } else s)) sub).id (status_map (ev.status.getD "")) (pyTs ev.current_period_start) (pyTs ev.current_period_end) (some (ev.cancel_at_period_end || ev.cancel_at.isSome)) none none now := hKey2
      have hFid : (((fun s => if s.id == sub.id then { s with status := status_map (ev.status.getD ""), updated_at := now, current_period_start := optUpd s.current_period_start (pyTs ev.current_period_start), current_period_end := optUpd s.current_period_end (pyTs ev.current_period_end), cancel_at_period_end := (some (ev.cancel_at_period_end || ev.cancel_at.isSome)).getD s.cancel_at_period_end, canceled_at := optUpd s.canceled_at none, ended_at := optUpd s.ended_at none } else s)) sub).id = sub.id := by simp
      rw [hFid] at hKeyB
      have habs : updateUserRecord (update_subscription_status (updateUserRecord db u.id (legacySubUpdate ev (status_map (ev.status.getD "")) (ev.cancel_at_period_end || ev.cancel_at.isSome))) sub.id (status_map (ev.status.getD "")) (pyTs ev.current_period_start) (pyTs ev.current_period_end) (some (ev.cancel_at_period_end || ev.cancel_at.isSome)) none none now) u.id (legacySubUpdate ev (status_map (ev.status.getD "")) (ev.cancel_at_period_end || ev.cancel_at.isSome)) = update_subscription_status (updateUserRecord db u.id (legacySubUpdate ev (status_map (ev.status.getD "")) (ev.cancel_at_period_end || ev.cancel_at.isSome))) sub.id (status_map (ev.status.getD "")) (pyTs ev.current_period_start) (pyTs ev.current_period_end) (some (ev.cancel_at_period_end || ev.cancel_at.isSome)) none none now := by
        apply updateUserRecord_absorb
        have hXusers : (update_subscription_status (updateUserRecord db u.id (legacySubUpdate ev (status_map (ev.status.getD "")) (ev.cancel_at_period_end || ev.cancel_at.isSome))) sub.id (status_map (ev.status.getD "")) (pyTs ev.current_period_start) (pyTs ev.current_period_end) (some (ev.cancel_at_period_end || ev.cancel_at.isSome)) none none now).users = db.users.map (fun x => if x.id == u.id then (legacySubUpdate ev (status_map (ev.status.getD "")) (ev.cancel_at_period_end || ev.cancel_at.isSome)) x else x) := rfl
        rw [hXusers, map_apply_idem _ _ (guard_update_idem (legacySubUpdate ev (status_map (ev.status.getD "")) (ev.cancel_at_period_end || ev.cancel_at.isSome)) (fun x => rfl)
          (legacySubUpdate_idem ev _ _))]
      rw [habs] at hKeyB
      rw [hKeyA, hKeyB]
      exact update_subscription_status_idem (updateUserRecord db u.id (legacySubUpdate ev (status_map (ev.status.getD "")) (ev.cancel_at_period_end || ev.cancel_at.isSome))) sub.id (status_map (ev.status.getD "")) (pyTs ev.current_period_start) (pyTs ev.current_period_end) (some (ev.cancel_at_period_end || ev.cancel_at.isSome)) none none now
    | none =>
      have hKeyA : update_user_subscription db ev now = create_subscription (updateUserRecord db u.id (legacySubUpdate ev (status_map (ev.status.getD "")) (ev.cancel_at_period_end || ev.cancel_at.isSome))) u.id plan.id ev.id (status_map (ev.status.getD "")) (pyTs ev.current_period_start) (pyTs ev.current_period_end) (pyTs ev.trial_start) (pyTs ev.trial_end) now := by
        rw [hsub] at hKey
        exact hKey
      have hfind0 : db.subscriptions.find?
          (fun s => s.stripe_subscription_id == some i) = none := by
        rw [hi] at hsub
        simpa [get_subscription_by_stripe_id] using hsub
      have hZsubs : (create_subscription (updateUserRecord db u.id (legacySubUpdate ev (status_map (ev.status.getD "")) (ev.cancel_at_period_end || ev.cancel_at.isSome))) u.id plan.id ev.id (status_map (ev.status.getD "")) (pyTs ev.current_period_start) (pyTs ev.current_period_end) (pyTs ev.trial_start) (pyTs ev.trial_end) now).subscriptions = db.subscriptions ++ [{ id := db.next_id, user_id := u.id, plan_id := plan.id, stripe_subscription_id := ev.id, status := status_map (ev.status.getD ""), current_period_start := pyTs ev.current_period_start, current_period_end := pyTs ev.current_period_end, cancel_at_period_end := false, canceled_at := none, ended_at := none, trial_start := pyTs ev.trial_start, trial_end := pyTs ev.trial_end, created_at := now, updated_at := now }] := rfl
      have huZ : get_user_by_customer_id (create_subscription (updateUserRecord db u.id (legacySubUpdate ev (status_map (ev.status.getD "")) (ev.cancel_at_period_end || ev.cancel_at.isSome))) u.id plan.id ev.id (status_map (ev.status.getD "")) (pyTs ev.current_period_start) (pyTs ev.current_period_end) (pyTs ev.trial_start) (pyTs ev.trial_end) now) cid = some ((legacySubUpdate ev (status_map (ev.status.getD "")) (ev.cancel_at_period_end || ev.cancel_at.isSome)) u) := hu2
      have hKey2 := update_user_subscription_cases (create_subscription (updateUserRecord db u.id (legacySubUpdate ev (status_map (ev.status.getD "")) (ev.cancel_at_period_end || ev.cancel_at.isSome))) u.id plan.id ev.id (status_map (ev.status.getD "")) (pyTs ev.current_period_start) (pyTs ev.current_period_end) (pyTs ev.trial_start) (pyTs ev.trial_end) now) ev now cid ((legacySubUpdate ev (status_map (ev.status.getD "")) (ev.cancel_at_period_end || ev.cancel_at.isSome)) u) hcid hg2 huZ
      rw [get_plan_congr (create_subscription (updateUserRecord db u.id (legacySubUpdate ev (status_map (ev.status.getD "")) (ev.cancel_at_period_end || ev.cancel_at.isSome))) u.id plan.id ev.id (status_map (ev.status.getD "")) (pyTs ev.current_period_start) (pyTs ev.current_period_end) (pyTs ev.trial_start) (pyTs ev.trial_end) now) db rfl] at hKey2
      rw [hpl] at hKey2
      have hsubZ : get_subscription_by_stripe_id (create_subscription (updateUserRecord db u.id (legacySubUpdate ev (status_map (ev.status.getD "")) (ev.cancel_at_period_end || ev.cancel_at.isSome))) u.id plan.id ev.id (status_map (ev.status.getD "")) (pyTs ev.current_period_start) (pyTs ev.current_period_end) (pyTs ev.trial_start) (pyTs ev.trial_end) now) ev.id = some ({ id := db.next_id, user_id := u.id, plan_id := plan.id, stripe_subscription_id := ev.id, status := status_map (ev.status.getD ""), current_period_start := pyTs ev.current_period_start, current_period_end := pyTs ev.current_period_end, cancel_at_period_end := false, canceled_at := none, ended_at := none, trial_start := pyTs ev.trial_start, trial_end := pyTs ev.trial_end, created_at := now, updated_at := now }) := by
        rw [hi]
        show (create_subscription (updateUserRecord db u.id (legacySubUpdate ev (status_map (ev.status.getD "")) (ev.cancel_at_period_end || ev.cancel_at.isSome))) u.id plan.id (some i) (status_map (ev.status.getD "")) (pyTs ev.current_period_start) (pyTs ev.current_period_end) (pyTs ev.trial_start) (pyTs ev.trial_end) now).subscriptions.find?
          (fun s => s.stripe_subscription_id == some i) = some ({ id := db.next_id, user_id := u.id, plan_id := plan.id, stripe_subscription_id := some i, status := status_map (ev.status.getD ""), current_period_start := pyTs ev.current_period_start, current_period_end := pyTs ev.current_period_end, cancel_at_period_end := false, canceled_at := none, ended_at := none, trial_start := pyTs ev.trial_start, trial_end := pyTs ev.trial_end, created_at := now, updated_at := now })
        have hZsubs2 : (create_subscription (updateUserRecord db u.id (legacySubUpdate ev (status_map (ev.status.getD "")) (ev.cancel_at_period_end || ev.cancel_at.isSome))) u.id plan.id (some i) (status_map (ev.status.getD "")) (pyTs ev.current_period_start) (pyTs ev.current_period_end) (pyTs ev.trial_start) (pyTs ev.trial_end) now).subscriptions = db.subscriptions ++ [{ id := db.next_id, user_id := u.id, plan_id := plan.id, stripe_subscription_id := some i, status := status_map (ev.status.getD ""), current_period_start := pyTs ev.current_period_start, current_period_end := pyTs ev.current_period_end, cancel_at_period_end := false, canceled_at := none, ended_at := none, trial_start := pyTs ev.trial_start, trial_end := pyTs ev.trial_end, created_at := now, updated_at := now }] := rfl
        rw [hZsubs2, List.find?_append, hfind0]
        simp
      rw [hsubZ] at hKey2
      have hKeyB : update_user_subscription (create_subscription (updateUserRecord db u.id (legacySubUpdate ev (status_map (ev.status.getD "")) (ev.cancel_at_period_end || ev.cancel_at.isSome))) u.id plan.id ev.id (status_map (ev.status.getD "")) (pyTs ev.current_period_start) (pyTs ev.current_period_end) (pyTs ev.trial_start) (pyTs ev.trial_end) now) ev now =
          update_subscription_status (updateUserRecord (create_subscription (updateUserRecord db u.id (legacySubUpdate ev (status_map (ev.status.getD "")) (ev.cancel_at_period_end || ev.cancel_at.isSome))) u.id plan.id ev.id (status_map (ev.status.getD "")) (pyTs ev.current_period_start) (pyTs ev.current_period_end) (pyTs ev.trial_start) (pyTs ev.trial_end) now) u.id (legacySubUpdate ev (status_map (ev.status.getD "")) (ev.cancel_at_period_end || ev.cancel_at.isSome)))
            db.next_id (status_map (ev.status.getD "")) (pyTs ev.current_period_start) (pyTs ev.current_period_end) (some (ev.cancel_at_period_end || ev.cancel_at.isSome)) none none now := hKey2
      have habs : updateUserRecord (create_subscription (updateUserRecord db u.id (legacySubUpdate ev (status_map (ev.status.getD "")) (ev.cancel_at_period_end || ev.cancel_at.isSome))) u.id plan.id ev.id (status_map (ev.status.getD "")) (pyTs ev.current_period_start) (pyTs ev.current_period_end) (pyTs ev.trial_start) (pyTs ev.trial_end) now) u.id (legacySubUpdate ev (status_map (ev.status.getD "")) (ev.cancel_at_period_end || ev.cancel_at.isSome)) = create_subscription (updateUserRecord db u.id (legacySubUpdate ev (status_map (ev.status.getD "")) (ev.cancel_at_period_end || ev.cancel_at.isSome))) u.id plan.id ev.id (status_map (ev.status.getD "")) (pyTs ev.current_period_start) (pyTs ev.current_period_end) (pyTs ev.trial_start) (pyTs ev.trial_end) now := by
        apply updateUserRecord_absorb
        have hZusers : (create_subscription (updateUserRecord db u.id (legacySubUpdate ev (status_map (ev.status.getD "")) (ev.cancel_at_period_end || ev.cancel_at.isSome))) u.id plan.id ev.id (status_map (ev.status.getD "")) (pyTs ev.current_period_start) (pyTs ev.current_period_end) (pyTs ev.trial_start) (pyTs ev.trial_end) now).users = db.users.map (fun x => if x.id == u.id then (legacySubUpdate ev (status_map (ev.status.getD "")) (ev.cancel_at_period_end || ev.cancel_at.isSome)) x else x) := rfl
        rw [hZusers, map_apply_idem _ _ (guard_update_idem (legacySubUpdate ev (status_map (ev.status.getD "")) (ev.cancel_at_period_end || ev.cancel_at.isSome)) (fun x => rfl)
          (legacySubUpdate_idem ev _ _))]
      rw [habs] at hKeyB
      have hfinal : update_subscription_status (create_subscription (updateUserRecord db u.id (legacySubUpdate ev (status_map (ev.status.getD "")) (ev.cancel_at_period_end || ev.cancel_at.isSome))) u.id plan.id ev.id (status_map (ev.status.getD "")) (pyTs ev.current_period_start) (pyTs ev.current_period_end) (pyTs ev.trial_start) (pyTs ev.trial_end) now) db.next_id (status_map (ev.status.getD "")) (pyTs ev.current_period_start) (pyTs ev.current_period_end) (some (ev.cancel_at_period_end || ev.cancel_at.isSome)) none none now = create_subscription (updateUserRecord db u.id (legacySubUpdate ev (status_map (ev.status.getD "")) (ev.cancel_at_period_end || ev.cancel_at.isSome))) u.id plan.id ev.id (status_map (ev.status.getD "")) (pyTs ev.current_period_start) (pyTs ev.current_period_end) (pyTs ev.trial_start) (pyTs ev.trial_end) now := by
        apply update_subscription_status_absorb
        rw [hZsubs, List.map_append]
        congr 1
        · have hpt : ∀ s ∈ db.subscriptions, (fun s => if s.id == db.next_id then { s with status := status_map (ev.status.getD ""), updated_at := now, current_period_start := optUpd s.current_period_start (pyTs ev.current_period_start), current_period_end := optUpd s.current_period_end (pyTs ev.current_period_end), cancel_at_period_end := (some (ev.cancel_at_period_end || ev.cancel_at.isSome)).getD s.cancel_at_period_end, canceled_at := optUpd s.canceled_at none, ended_at := optUpd s.ended_at none } else s) s = id s := by
            intro s hs
            have hb : (s.id == db.next_id) = false := by
              simp only [beq_eq_false_iff_ne]
              exact hfresh s hs
            simp [hb]
          rw [List.map_congr_left hpt, List.map_id]
        · simp only [List.map_cons, List.map_nil]
          congr 1
          simp [optUpd_self, hcape]
      rw [hKeyA, hKeyB]
      exact hfinal

/-- C5 witness: replaying the active-status subscription event (no scheduled
cancel) on the store that already holds the subscription row changes nothing. -/
theorem C5_witness :
    update_user_subscription (update_user_subscription dbWithSub evSubActive 50)
        evSubActive 50 =
      update_user_subscription dbWithSub evSubActive 50 :=
  (C5_amended dbWithSub evSubActive 50).2 (by decide) (by decide) (by decide)
